import Mathlib

/-!
A shallow embedding, in Lean 4, of the two notebooks of the `genai` repository:
`llm_parameter_eff_fine_tuning.ipynb` (LoRA fine-tuning of DistilBERT on MultiNLI)
and `custom_chatbot_langchain.ipynb` (a retrieval-augmented chatbot).

Pure Python functions of the notebooks become Lean functions; the external
library calls they make (torch argmax, sklearn macro metrics, pandas column
arithmetic, the LangChain document loader) are modelled by executable Lean
definitions that follow the documented semantics of those libraries; the
notebook-level sequencing and filesystem effects are modelled as explicit
traces.  Floating point arithmetic is modelled over the exact rationals.
-/

set_option autoImplicit false

/-! ## Fine-tuning notebook: metric computation

Embedding of `compute_metrics` (section 7 of `llm_parameter_eff_fine_tuning.ipynb`):

    predictions, labels = eval_pred
    preds = torch.argmax(torch.tensor(predictions), dim=-1).cpu()
    f1 = f1_score(labels, preds, average='macro')
    precision = precision_score(labels, preds, average='macro')
    recall = recall_score(labels, preds, average='macro')
    return {"f1_score": f1, "precision": precision, "recall": recall}
-/

/-- Model of `torch.argmax(·, dim=-1)` on one row of logits: the index of the
first occurrence of the maximal element (torch documents that the index of the
first maximal value is returned).  `torch.argmax` is undefined on an empty row;
the model returns 0 there. -/
def torch_argmax : List ℚ → Nat
  | [] => 0
  | [_] => 0
  | x :: y :: rest =>
    let m := torch_argmax (y :: rest)
    if x < (y :: rest).getD m 0 then m + 1 else 0

/-- The class set sklearn uses when no explicit label list is passed:
the distinct values occurring in `y_true` or `y_pred`. -/
def sklearn_classes (y_true y_pred : List ℤ) : List ℤ :=
  (y_true ++ y_pred).dedup

/-- Number of aligned positions of `y_true`/`y_pred` satisfying `p`. -/
def pair_count (y_true y_pred : List ℤ) (p : ℤ × ℤ → Bool) : ℚ :=
  (((y_true.zip y_pred).filter p).length : ℚ)

/-- Per-class precision: true positives over predicted positives
(0 when the class is never predicted, sklearn's zero division convention;
in ℚ division by zero is 0). -/
def precision_of_class (y_true y_pred : List ℤ) (c : ℤ) : ℚ :=
  pair_count y_true y_pred (fun ab => ab.1 == c && ab.2 == c) /
    pair_count y_true y_pred (fun ab => ab.2 == c)

/-- Per-class recall: true positives over actual positives. -/
def recall_of_class (y_true y_pred : List ℤ) (c : ℤ) : ℚ :=
  pair_count y_true y_pred (fun ab => ab.1 == c && ab.2 == c) /
    pair_count y_true y_pred (fun ab => ab.1 == c)

/-- Per-class F1: harmonic mean of per-class precision and recall
(0 when both are 0, again via rational division by zero). -/
def f1_of_class (y_true y_pred : List ℤ) (c : ℤ) : ℚ :=
  2 * precision_of_class y_true y_pred c * recall_of_class y_true y_pred c /
    (precision_of_class y_true y_pred c + recall_of_class y_true y_pred c)

/-- Unweighted mean of a per-class metric over a class list. -/
def macro_average (f : ℤ → ℚ) (cs : List ℤ) : ℚ :=
  (cs.map f).sum / (cs.length : ℚ)

/-- Model of `sklearn.metrics.precision_score(y_true, y_pred, average='macro')`. -/
def precision_score (y_true y_pred : List ℤ) : ℚ :=
  macro_average (precision_of_class y_true y_pred) (sklearn_classes y_true y_pred)

/-- Model of `sklearn.metrics.recall_score(y_true, y_pred, average='macro')`. -/
def recall_score (y_true y_pred : List ℤ) : ℚ :=
  macro_average (recall_of_class y_true y_pred) (sklearn_classes y_true y_pred)

/-- Model of `sklearn.metrics.f1_score(y_true, y_pred, average='macro')`. -/
def f1_score (y_true y_pred : List ℤ) : ℚ :=
  macro_average (f1_of_class y_true y_pred) (sklearn_classes y_true y_pred)

/-- The argmax-predicted classes for a batch of per-class logit rows. -/
def argmax_preds (predictions : List (List ℚ)) : List ℤ :=
  predictions.map (fun row => (torch_argmax row : ℤ))

/-- Embedding of the notebook's `compute_metrics`.  The returned Python dict is
modelled as an association list, preserving the key order of the source. -/
def compute_metrics (eval_pred : List (List ℚ) × List ℤ) : List (String × ℚ) :=
  let predictions := eval_pred.1
  let labels := eval_pred.2
  let preds := argmax_preds predictions
  [("f1_score", f1_score labels preds),
   ("precision", precision_score labels preds),
   ("recall", recall_score labels preds)]

/-! ## Fine-tuning notebook: example display

Embedding of `show_one_example_per_label` (section 2.2):

    def show_one_example_per_label(dataset_split, offset=0):
        seen_labels = set()
        subset = dataset_split.select(range(offset, len(dataset_split)))
        for example in subset:
            label = example["label"]
            if label in [0, 1, 2] and label not in seen_labels:
                print(...)
                seen_labels.add(label)
            if len(seen_labels) == 3:
                break
-/

/-- One MultiNLI example as the notebook reads it. -/
structure MNLIExample where
  premise : String
  hypothesis : String
  label : ℤ
deriving DecidableEq, Repr

/-- The membership test `label in [0, 1, 2]` of the source. -/
def validLabel (l : ℤ) : Bool :=
  l == 0 || l == 1 || l == 2

/-- The loop body of `show_one_example_per_label`, with the examples printed so
far returned as a list and `seen` the set of labels already printed (a list used
as a set: labels are only added when absent).  The inner `if len(seen) == 3:
break` of the source is checked after every iteration, mirroring Python. -/
def showGo : List MNLIExample → List ℤ → List MNLIExample
  | [], _ => []
  | e :: rest, seen =>
    if validLabel e.label = true ∧ e.label ∉ seen then
      if seen.length + 1 = 3 then [e]
      else e :: showGo rest (e.label :: seen)
    else
      if seen.length = 3 then []
      else showGo rest seen

/-- Embedding of `show_one_example_per_label`: `select(range(offset, len))` is
`List.drop offset`, the printed examples are returned in print order. -/
def show_one_example_per_label (dataset_split : List MNLIExample) (offset : Nat) : List MNLIExample :=
  showGo (dataset_split.drop offset) []

/-- Specification-side selector: the same greedy "first example carrying a label
not yet seen" process, without the early break once all three labels are seen. -/
def firstPerLabel : List MNLIExample → List ℤ → List MNLIExample
  | [], _ => []
  | e :: rest, seen =>
    if validLabel e.label = true ∧ e.label ∉ seen then
      e :: firstPerLabel rest (e.label :: seen)
    else firstPerLabel rest seen

/-! ## Fine-tuning notebook: downsampling

Embedding of section 5:

    train_dataset = tokenized_datasets["train"].select(range(50000))
    eval_dataset = tokenized_datasets["validation_matched"].select(range(4000))
-/

/-- Model of `Dataset.select(range(n))`: the first `n` rows in original order;
the `datasets` library raises when an index is out of range, so the model
returns `none` when the split is shorter than `n`. -/
def select_range {α : Type} (l : List α) (n : Nat) : Option (List α) :=
  if n ≤ l.length then some (l.take n) else none

/-- The pair of datasets handed to the PEFT `Trainer` (its `train_dataset` and
`eval_dataset` arguments). -/
structure TrainerDatasets (α : Type) where
  train_dataset : List α
  eval_dataset : List α
deriving DecidableEq, Repr

/-- Embedding of the downsampling cell: the tokenized train split is cut to its
first 50000 rows and the tokenized validation_matched split to its first 4000. -/
def downsample {α : Type} (tokenized_train tokenized_validation_matched : List α) :
    Option (TrainerDatasets α) :=
  match select_range tokenized_train 50000, select_range tokenized_validation_matched 4000 with
  | some t, some e => some ⟨t, e⟩
  | _, _ => none

/-! ## Fine-tuning notebook: training arguments and filesystem effects -/

/-- The fields of `transformers.TrainingArguments` that the notebook sets,
with the library's documented defaults.  `learning_rate` and `weight_decay`
are exact rationals standing for the float literals of the source. -/
structure TrainingArguments where
  output_dir : String
  evaluation_strategy : String := "no"
  save_strategy : String := "steps"
  learning_rate : ℚ := 5 / 100000
  per_device_train_batch_size : Nat := 8
  per_device_eval_batch_size : Nat := 8
  num_train_epochs : Nat := 3
  weight_decay : ℚ := 0
  logging_dir : String := ""
  logging_steps : Nat := 500
  load_best_model_at_end : Bool := false
  report_to : String := "all"
  dataloader_num_workers : Nat := 0
  do_train : Bool := true
  do_eval : Bool := false
deriving DecidableEq, Repr

/-- The arguments used to evaluate the pretrained base model (section 7). -/
def training_args_base : TrainingArguments :=
  { output_dir := "./base_model_eval"
    per_device_eval_batch_size := 8
    do_train := false
    do_eval := true
    evaluation_strategy := "epoch"
    logging_steps := 10
    report_to := "none" }

/-- The arguments used for the PEFT training run (section 8.4). -/
def training_args : TrainingArguments :=
  { output_dir := "./peft_multi_nli_results"
    evaluation_strategy := "epoch"
    save_strategy := "epoch"
    learning_rate := 2 / 100000
    per_device_train_batch_size := 8
    per_device_eval_batch_size := 8
    num_train_epochs := 12
    weight_decay := 1 / 100
    logging_dir := "./logs"
    logging_steps := 10
    load_best_model_at_end := true
    report_to := "none"
    dataloader_num_workers := 10 }

/-- Directories the external `Trainer.train` persists checkpoints under: with a
save strategy other than `"no"` it writes checkpoints below `output_dir` (the
notebook's own commentary: evaluated and checkpointed at the end of every
epoch, with the best checkpoint restored at the end). -/
def trainer_train_writes (args : TrainingArguments) : List String :=
  if args.save_strategy = "no" then [] else [args.output_dir]

/-- `Trainer.evaluate` persists nothing. -/
def trainer_evaluate_writes (_args : TrainingArguments) : List String := []

/-- `peft_model.save_pretrained(dir)` writes the adapter weight files into `dir`. -/
def save_pretrained_writes (dir : String) : List String := [dir]

/-- All directories the fine-tuning notebook writes, in execution order:
the base-model evaluation (section 7), the PEFT training run (section 8.4),
and the adapter save (section 9, `peft_model.save_pretrained("./peft_multi_nli")`). -/
def fine_tuning_run_writes : List String :=
  trainer_evaluate_writes training_args_base ++
    trainer_train_writes training_args ++
      save_pretrained_writes "./peft_multi_nli"

/-- The chatbot notebook persists nothing: the FAISS index is built in memory
with `FAISS.from_documents` and never saved. -/
def chatbot_run_writes : List String := []

/-! ## Fine-tuning notebook: cell execution order -/

/-- The executable steps of `llm_parameter_eff_fine_tuning.ipynb`, one
constructor per code cell (in the numbering of its markdown sections). -/
inductive FineTuneStep where
  | loadDataset        -- section 2.1: load_dataset("multi_nli")
  | showExamples       -- section 2.2: show_one_example_per_label
  | loadTokenizer      -- section 3: AutoTokenizer.from_pretrained
  | tokenizeDataset    -- section 4: dataset.map(preprocess_function)
  | downsampleSplits   -- section 5: select(range(50000)) / select(range(4000))
  | loadBaseModel      -- section 6: AutoModelForSequenceClassification.from_pretrained
  | defineMetrics      -- section 7: def compute_metrics
  | baselineEvaluate   -- section 7: trainer_base.evaluate() with compute_metrics
  | checkDevice        -- section 7: print model device
  | defineTargets      -- section 8.1: target_modules
  | defineLoraConfig   -- section 8.2: LoraConfig
  | adapterInject      -- section 8.3: get_peft_model(model, peft_config)
  | trainLoop          -- section 8.4: trainer.train(), evaluating each epoch
  | saveAdapters       -- section 9: peft_model.save_pretrained
deriving DecidableEq, Repr

/-- The code cells of the fine-tuning notebook in their top-to-bottom order. -/
def fineTuneSteps : List FineTuneStep :=
  [FineTuneStep.loadDataset, FineTuneStep.showExamples, FineTuneStep.loadTokenizer,
   FineTuneStep.tokenizeDataset, FineTuneStep.downsampleSplits, FineTuneStep.loadBaseModel,
   FineTuneStep.defineMetrics, FineTuneStep.baselineEvaluate, FineTuneStep.checkDevice,
   FineTuneStep.defineTargets, FineTuneStep.defineLoraConfig, FineTuneStep.adapterInject,
   FineTuneStep.trainLoop, FineTuneStep.saveAdapters]

/-- Whether a step runs `compute_metrics`: the baseline evaluation does
(`compute_metrics` is passed to `trainer_base` and `evaluate()` runs it), and
the training loop does (`compute_metrics` is passed to `trainer` and
`evaluation_strategy="epoch"` evaluates at the end of every epoch). -/
def stepComputesMetrics : FineTuneStep → Bool
  | FineTuneStep.baselineEvaluate => true
  | FineTuneStep.trainLoop => true
  | _ => false

/-! ## Chatbot notebook: data preparation

Embedding of section 4 of `custom_chatbot_langchain.ipynb`:

    df = pd.read_csv('data/character_descriptions.csv')
    df['text'] = df['Name'] + ": " + df['Description'] + " (" + df['Medium'] + ", " + df['Setting'] + ")"

and of section 5.2's `DataFrameLoader(df, page_content_column='text')`.
-/

/-- One row of `character_descriptions.csv` as the notebook uses it. -/
structure CharacterRow where
  Name : String
  Description : String
  Medium : String
  Setting : String
deriving DecidableEq, Repr

/-- The pandas column expression building `df['text']`, applied to one row. -/
def rowText (r : CharacterRow) : String :=
  r.Name ++ ": " ++ r.Description ++ " (" ++ r.Medium ++ ", " ++ r.Setting ++ ")"

/-- The dataframe after `df['text'] = ...`: each row paired with its text column. -/
def addTextColumn (df : List CharacterRow) : List (CharacterRow × String) :=
  df.map (fun r => (r, rowText r))

/-- A LangChain document: the designated page content plus the remaining
columns as metadata. -/
structure LCDocument where
  page_content : String
  metadata : CharacterRow
deriving DecidableEq, Repr

/-- Model of `DataFrameLoader(df, page_content_column='text').load()`: one
document per row, whose page content is the row's `text` column. -/
def dataFrameLoaderLoad (df : List (CharacterRow × String)) : List LCDocument :=
  df.map (fun rt => ⟨rt.2, rt.1⟩)

/-! ## Chatbot notebook: cell execution order -/

/-- The questions of section 5.3, in source order. -/
def questions : List String :=
  ["Who is Jack and what issues is he facing?",
   "How is Sarah related to Jack?",
   "Who is Alice?"]

/-- The observable events of `custom_chatbot_langchain.ipynb`.  Question
events carry the index of the question in `questions`. -/
inductive ChatbotEvent where
  | csvLoad                     -- section 4: pd.read_csv
  | textConcat                  -- section 4: df['text'] = ...
  | loadDocuments               -- section 5.2: DataFrameLoader(...).load()
  | initEmbeddings              -- section 5.2: OpenAIEmbeddings(...)
  | buildVectorStore            -- section 5.2: FAISS.from_documents (embedding API calls happen here)
  | initChatModel               -- section 5.2: ChatOpenAI(...)
  | buildRetriever              -- section 5.2: vectorstore.as_retriever()
  | buildChain                  -- section 5.2: ConversationalRetrievalChain.from_llm
  | printQuestion (i : Nat)     -- loop body: print(f"Question: ...")
  | askWithout (i : Nat)        -- loop body: chatbot_without_customization(q)
  | printAnswerWithout (i : Nat)
  | askWith (i : Nat)           -- loop body: chatbot_with_langchain(q)
  | printAnswerWith (i : Nat)
  | printSep (i : Nat)          -- loop body: print("="*80)
deriving DecidableEq, Repr

/-- One iteration of the comparison loop of section 5.3, for question `i`. -/
def qaIterationEvents (i : Nat) : List ChatbotEvent :=
  [ChatbotEvent.printQuestion i, ChatbotEvent.askWithout i,
   ChatbotEvent.printAnswerWithout i, ChatbotEvent.askWith i,
   ChatbotEvent.printAnswerWith i, ChatbotEvent.printSep i]

/-- The full event trace of the chatbot notebook, top to bottom. -/
def chatbotTrace : List ChatbotEvent :=
  [ChatbotEvent.csvLoad, ChatbotEvent.textConcat, ChatbotEvent.loadDocuments,
   ChatbotEvent.initEmbeddings, ChatbotEvent.buildVectorStore, ChatbotEvent.initChatModel,
   ChatbotEvent.buildRetriever, ChatbotEvent.buildChain] ++
    (List.range questions.length).flatMap qaIterationEvents

/-- Events that generate an answer through an external API call. -/
def isAnswerGeneration : ChatbotEvent → Bool
  | ChatbotEvent.askWithout _ => true
  | ChatbotEvent.askWith _ => true
  | _ => false

/-- Events that print part of the answer comparison. -/
def isComparisonPrint : ChatbotEvent → Bool
  | ChatbotEvent.printAnswerWithout _ => true
  | ChatbotEvent.printAnswerWith _ => true
  | _ => false

/-! ## Chatbot notebook: the two chatbot functions and error propagation

Embedding of sections 5.1 and 5.2.  The external calls (the chat-completion
request and the retrieval chain invocation) are passed in as parameters whose
results are `Except`: fallible library calls either return a value or raise,
and the notebook code contains no try/except, so every raise propagates. -/

/-- Library errors are modelled by their Python exception rendering. -/
abbrev PyError := String

/-- One message of a chat-completion request or response. -/
structure ChatMessage where
  role : String
  content : String
deriving DecidableEq, Repr

/-- One choice of a chat-completion response. -/
structure ChatChoice where
  message : ChatMessage
deriving DecidableEq, Repr

/-- A chat-completion response. -/
structure ChatResponse where
  choices : List ChatChoice
deriving DecidableEq, Repr

/-- Python's `str.strip()`: leading and trailing whitespace removed. -/
def pyStrip (s : String) : String := s.trim

/-- Embedding of `chatbot_without_customization`: build the one-message request,
call the chat-completion endpoint, and return the stripped content of the first
choice.  `choices[0]` on an empty list raises an IndexError, which this code
also leaves unhandled. -/
def chatbot_without_customization
    (create : List ChatMessage → Except PyError ChatResponse)
    (question : String) : Except PyError String :=
  match create [⟨"user", question⟩] with
  | Except.error e => Except.error e
  | Except.ok response =>
    match response.choices with
    | [] => Except.error "IndexError"
    | c :: _ => Except.ok (pyStrip c.message.content)

/-- The payload `chatbot_with_langchain` submits to the retrieval chain:
`{"question": question, "chat_history": chat_history}`. -/
structure ChainInput where
  question : String
  chat_history : List (String × String)
deriving DecidableEq, Repr

/-- The result dict of `qa_chain.invoke`, with its `answer` entry. -/
structure ChainResult where
  answer : String
deriving DecidableEq, Repr

/-- Embedding of `chatbot_with_langchain`: rebuild the retrieval chain, invoke
it on the question and history, return `result['answer']`.  The chain
invocation is the parameter `invoke`. -/
def chatbot_with_langchain
    (invoke : ChainInput → Except PyError ChainResult)
    (question : String) (chat_history : List (String × String)) :
    Except PyError String :=
  match invoke ⟨question, chat_history⟩ with
  | Except.error e => Except.error e
  | Except.ok result => Except.ok result.answer

/-- The tail of the fine-tuning notebook after adapter injection:
`trainer.train()` followed by `peft_model.save_pretrained`.  An exception
raised by training propagates and the save never runs. -/
def fine_tune_tail (train_result save_result : Except PyError Unit) : Except PyError Unit :=
  match train_result with
  | Except.error e => Except.error e
  | Except.ok _ => save_result

/-- A chat-completion endpoint that always raises, for concrete instantiation. -/
def failing_create (e : PyError) : List ChatMessage → Except PyError ChatResponse :=
  fun _ => Except.error e

/-- A retrieval chain invocation that always raises, for concrete instantiation. -/
def failing_invoke (e : PyError) : ChainInput → Except PyError ChainResult :=
  fun _ => Except.error e

/-! ## Chatbot notebook: statelessness of `chatbot_with_langchain`

    def chatbot_with_langchain(question, chat_history=[]):
        qa_chain = ConversationalRetrievalChain.from_llm(chat_model, retriever)
        result = qa_chain.invoke({"question": question, "chat_history": chat_history})
        return result['answer']

The mutable state a sequence of calls could interact with is modelled
explicitly: the shared Python default-argument object `[]` (created once at
function definition time) and an allocation counter identifying each
`ConversationalRetrievalChain` object ever constructed.  The body never
assigns to either, so the model makes any mutation visible. -/

/-- The module-level mutable context of the chatbot notebook, as visible to
`chatbot_with_langchain`. -/
structure RagEnv where
  nextChainId : Nat
  defaultHist : List (String × String)
deriving DecidableEq, Repr

/-- The state right after the function definition is executed: no chain built
by calls yet, default history object `[]`. -/
def initialRagEnv : RagEnv := ⟨0, []⟩

/-- What one call of `chatbot_with_langchain` does: the chain it freshly
constructs and the input it submits to that chain. -/
structure LangchainCall where
  input : ChainInput
  chainId : Nat
deriving DecidableEq, Repr

/-- One call of `chatbot_with_langchain` on the mutable context: an omitted
`chat_history` argument (`none`) resolves to the shared default object; the
body allocates a fresh chain and submits the question and history, leaving the
default object untouched. -/
def chatbot_with_langchain_call (env : RagEnv) (question : String)
    (hist : Option (List (String × String))) : LangchainCall × RagEnv :=
  let h := hist.getD env.defaultHist
  (⟨⟨question, h⟩, env.nextChainId⟩, ⟨env.nextChainId + 1, env.defaultHist⟩)

/-- Run a sequence of calls, collecting what each submitted and allocated. -/
def runRagCalls (env : RagEnv) : List (String × Option (List (String × String))) → List LangchainCall
  | [] => []
  | c :: rest =>
    (chatbot_with_langchain_call env c.1 c.2).1 ::
      runRagCalls (chatbot_with_langchain_call env c.1 c.2).2 rest

/-- The mutable context after a sequence of calls. -/
def ragEnvAfter (env : RagEnv) : List (String × Option (List (String × String))) → RagEnv
  | [] => env
  | c :: rest => ragEnvAfter (chatbot_with_langchain_call env c.1 c.2).2 rest

/-! ## Supporting lemmas: `torch_argmax` really is an argmax -/

/-- On a nonempty row the modelled argmax is a valid index. -/
theorem torch_argmax_lt_length : ∀ (row : List ℚ), row ≠ [] → torch_argmax row < row.length
  | [], h => absurd rfl h
  | [_], _ => by simp [torch_argmax]
  | x :: y :: rest, _ => by
    have ih := torch_argmax_lt_length (y :: rest) (by simp)
    simp only [torch_argmax]
    split
    · simpa using Nat.succ_lt_succ ih
    · simp

/-- The value at the modelled argmax dominates every element of the row. -/
theorem torch_argmax_le_getD : ∀ (row : List ℚ), ∀ x ∈ row, x ≤ row.getD (torch_argmax row) 0
  | [], x, hx => absurd hx (List.not_mem_nil x)
  | [a], x, hx => by
    simp only [List.mem_singleton] at hx
    simp [torch_argmax, hx]
  | a :: b :: rest, x, hx => by
    have ih := torch_argmax_le_getD (b :: rest)
    simp only [torch_argmax]
    by_cases hlt : a < (b :: rest).getD (torch_argmax (b :: rest)) 0
    · rw [if_pos hlt, List.getD_cons_succ]
      rcases List.mem_cons.1 hx with h | h
      · exact h ▸ le_of_lt hlt
      · exact ih x h
    · rw [if_neg hlt, List.getD_cons_zero]
      rcases List.mem_cons.1 hx with h | h
      · exact le_of_eq h
      · exact le_trans (ih x h) (not_lt.1 hlt)

/-! ## Supporting lemmas: the per-label selector -/

/-- A label passing the source's validity test lies in `[0, 1, 2]`. -/
theorem valid_label_mem (x : ℤ) (h : validLabel x = true) : x ∈ ([0, 1, 2] : List ℤ) := by
  simp only [validLabel, Bool.or_eq_true, beq_iff_eq] at h
  rcases h with (h | h) | h <;> simp [h]

/-- A duplicate-free list of valid labels has at most three elements. -/
theorem nodup_valid_length_le (seen : List ℤ) (hnd : seen.Nodup)
    (hv : ∀ x ∈ seen, validLabel x = true) : seen.length ≤ 3 := by
  have hsub : seen ⊆ [0, 1, 2] := fun x hx => valid_label_mem x (hv x hx)
  simpa using (hnd.subperm hsub).length_le

/-- Three distinct valid labels exhaust the valid labels. -/
theorem full_seen_mem (seen : List ℤ) (hnd : seen.Nodup)
    (hv : ∀ x ∈ seen, validLabel x = true) (hlen : 3 ≤ seen.length) :
    ∀ x : ℤ, validLabel x = true → x ∈ seen := by
  intro x hx
  by_contra hmem
  have hnd' : (x :: seen).Nodup := List.nodup_cons.2 ⟨hmem, hnd⟩
  have hv' : ∀ y ∈ x :: seen, validLabel y = true := by
    intro y hy
    rcases List.mem_cons.1 hy with rfl | hy
    · exact hx
    · exact hv y hy
  have := nodup_valid_length_le (x :: seen) hnd' hv'
  simp only [List.length_cons] at this
  omega

/-- Once every valid label has been seen, the selector selects nothing more. -/
theorem firstPerLabel_of_full (seen : List ℤ)
    (hfull : ∀ x : ℤ, validLabel x = true → x ∈ seen) :
    ∀ l : List MNLIExample, firstPerLabel l seen = []
  | [] => rfl
  | e :: rest => by
    simp only [firstPerLabel]
    rw [if_neg fun hc => hc.2 (hfull _ hc.1)]
    exact firstPerLabel_of_full seen hfull rest

/-- The early break of the source loop does not change what is printed: with
fewer than three distinct valid labels seen, the loop body agrees with the
break-free selector. -/
theorem showGo_eq_firstPerLabel :
    ∀ (l : List MNLIExample) (seen : List ℤ), seen.Nodup →
      (∀ x ∈ seen, validLabel x = true) → seen.length < 3 →
      showGo l seen = firstPerLabel l seen
  | [], _, _, _, _ => rfl
  | e :: rest, seen, hnd, hv, hlen => by
    simp only [showGo, firstPerLabel]
    by_cases hc : validLabel e.label = true ∧ e.label ∉ seen
    · rw [if_pos hc, if_pos hc]
      have hnd' : (e.label :: seen).Nodup := List.nodup_cons.2 ⟨hc.2, hnd⟩
      have hv' : ∀ y ∈ e.label :: seen, validLabel y = true := by
        intro y hy
        rcases List.mem_cons.1 hy with rfl | hy
        · exact hc.1
        · exact hv y hy
      by_cases h3 : seen.length + 1 = 3
      · rw [if_pos h3, firstPerLabel_of_full (e.label :: seen)
          (full_seen_mem _ hnd' hv' (by simp only [List.length_cons]; omega)) rest]
      · rw [if_neg h3]
        have := showGo_eq_firstPerLabel rest (e.label :: seen) hnd' hv'
          (by simp only [List.length_cons]; omega)
        rw [this]
    · rw [if_neg hc, if_neg hc, if_neg (by omega : ¬ seen.length = 3)]
      exact showGo_eq_firstPerLabel rest seen hnd hv hlen

/-- The selector never selects more than `3 - seen.length` examples. -/
theorem firstPerLabel_length :
    ∀ (l : List MNLIExample) (seen : List ℤ), seen.Nodup →
      (∀ x ∈ seen, validLabel x = true) →
      (firstPerLabel l seen).length + seen.length ≤ 3
  | [], seen, hnd, hv => by
    simpa [firstPerLabel] using nodup_valid_length_le seen hnd hv
  | e :: rest, seen, hnd, hv => by
    simp only [firstPerLabel]
    by_cases hc : validLabel e.label = true ∧ e.label ∉ seen
    · rw [if_pos hc]
      have hnd' : (e.label :: seen).Nodup := List.nodup_cons.2 ⟨hc.2, hnd⟩
      have hv' : ∀ y ∈ e.label :: seen, validLabel y = true := by
        intro y hy
        rcases List.mem_cons.1 hy with rfl | hy
        · exact hc.1
        · exact hv y hy
      have := firstPerLabel_length rest (e.label :: seen) hnd' hv'
      simp only [List.length_cons] at this ⊢
      omega
    · rw [if_neg hc]
      exact firstPerLabel_length rest seen hnd hv

/-- The labels of the selected examples are distinct and disjoint from `seen`. -/
theorem firstPerLabel_labels :
    ∀ (l : List MNLIExample) (seen : List ℤ),
      ((firstPerLabel l seen).map MNLIExample.label).Nodup ∧
      ∀ x ∈ (firstPerLabel l seen).map MNLIExample.label, x ∉ seen
  | [], seen => by simp [firstPerLabel]
  | e :: rest, seen => by
    simp only [firstPerLabel]
    by_cases hc : validLabel e.label = true ∧ e.label ∉ seen
    · rw [if_pos hc]
      obtain ⟨ihnd, ihmem⟩ := firstPerLabel_labels rest (e.label :: seen)
      simp only [List.map_cons, List.nodup_cons]
      refine ⟨⟨fun hmem => (ihmem _ hmem) (List.mem_cons_self _ _), ihnd⟩, ?_⟩
      intro x hx
      rcases List.mem_cons.1 hx with rfl | hx
      · exact hc.2
      · exact fun hs => (ihmem x hx) (List.mem_cons_of_mem _ hs)
    · rw [if_neg hc]
      exact firstPerLabel_labels rest seen

/-- Every selected example carries a valid label. -/
theorem firstPerLabel_all_valid :
    ∀ (l : List MNLIExample) (seen : List ℤ),
      (firstPerLabel l seen).all (fun e => validLabel e.label) = true
  | [], _ => rfl
  | e :: rest, seen => by
    simp only [firstPerLabel]
    by_cases hc : validLabel e.label = true ∧ e.label ∉ seen
    · rw [if_pos hc, List.all_cons, hc.1, firstPerLabel_all_valid rest (e.label :: seen)]
      rfl
    · rw [if_neg hc]
      exact firstPerLabel_all_valid rest seen

/-- The selector only reorders nothing: its output is a sublist of its input. -/
theorem firstPerLabel_sublist :
    ∀ (l : List MNLIExample) (seen : List ℤ), (firstPerLabel l seen).Sublist l
  | [], _ => List.Sublist.refl []
  | e :: rest, seen => by
    simp only [firstPerLabel]
    by_cases hc : validLabel e.label = true ∧ e.label ∉ seen
    · rw [if_pos hc]
      exact (firstPerLabel_sublist rest (e.label :: seen)).cons₂ e
    · rw [if_neg hc]
      exact (firstPerLabel_sublist rest seen).cons e

/-! ## Claim theorems -/

/-- Claim C1: `compute_metrics` is a thin wrapper around the external metric
functions: on any pair of a logit batch and a label array it returns a
dictionary whose keys are exactly `f1_score`, `precision` and `recall`, in
that order, holding the macro-averaged F1 score, precision and recall of the
argmax-predicted classes against the labels. -/
theorem compute_metrics_thin_wrapper (predictions : List (List ℚ)) (labels : List ℤ) :
    (compute_metrics (predictions, labels)).map Prod.fst =
      ["f1_score", "precision", "recall"] ∧
    compute_metrics (predictions, labels) =
      [("f1_score", f1_score labels (argmax_preds predictions)),
       ("precision", precision_score labels (argmax_preds predictions)),
       ("recall", recall_score labels (argmax_preds predictions))] ∧
    argmax_preds predictions = predictions.map (fun row => (torch_argmax row : ℤ)) :=
  ⟨rfl, rfl, rfl⟩

/-- Claim C2, counterexample: the fine-tuning run also persists the trainer
checkpoint directory `./peft_multi_nli_results` (its `TrainingArguments` set
`save_strategy="epoch"`), which is not the adapter directory
`./peft_multi_nli`, so the adapter directory is not the only artifact written. -/
theorem persisted_artifacts_beyond_adapter_dir :
    "./peft_multi_nli_results" ∈ fine_tuning_run_writes ∧
    "./peft_multi_nli_results" ≠ "./peft_multi_nli" := by
  constructor
  · decide
  · decide

/-- Claim C2, amended: the fine-tuning run persists exactly the per-epoch
trainer checkpoints under `./peft_multi_nli_results` and the adapter weights
under `./peft_multi_nli`; the chatbot run persists nothing (its vector index
is in memory only). -/
theorem fine_tuning_writes_checkpoints_and_adapters :
    fine_tuning_run_writes = ["./peft_multi_nli_results", "./peft_multi_nli"] ∧
    chatbot_run_writes = [] ∧
    training_args.save_strategy = "epoch" ∧
    training_args.num_train_epochs = 12 ∧
    training_args.load_best_model_at_end = true := by
  refine ⟨by decide, rfl, by decide, by decide, by decide⟩

/-- Claim C3, counterexample: `show_one_example_per_label` is a function
authored in the repository whose output on this fixed input is fully
determined by the selection logic written there — it deduplicates by label,
skips the out-of-range label 5, and keeps first occurrences — with no
external library involved. -/
theorem original_selection_logic_determines_output :
    show_one_example_per_label
      [⟨"p0", "h0", 1⟩, ⟨"p1", "h1", 1⟩, ⟨"p2", "h2", 0⟩,
       ⟨"p3", "h3", 5⟩, ⟨"p4", "h4", 2⟩, ⟨"p5", "h5", 0⟩] 0 =
      [⟨"p0", "h0", 1⟩, ⟨"p2", "h2", 0⟩, ⟨"p4", "h4", 2⟩] := by
  decide

/-- Claim C3, amended: the repository does author a small amount of
deterministic logic — the per-row text concatenation, the metric dictionary
wrapper with its argmax and fixed keys, and the per-label example selector —
whose outputs on fixed inputs are determined by code written there; only the
heavy computation is delegated to external libraries. -/
theorem repo_authored_deterministic_logic :
    rowText ⟨"Jack", "A young man", "Play", "England"⟩ =
      "Jack: A young man (Play, England)" ∧
    (compute_metrics ([[1, 3, 2], [5, 0, 0]], [1, 2])).map Prod.fst =
      ["f1_score", "precision", "recall"] ∧
    compute_metrics ([[1, 3, 2], [5, 0, 0]], [1, 2]) =
      [("f1_score", 1/3), ("precision", 1/3), ("recall", 1/3)] ∧
    torch_argmax [1, 3, 2] = 1 := by
  refine ⟨rfl, rfl, ?_, by decide⟩
  norm_num [compute_metrics, f1_score, precision_score, recall_score, macro_average,
    sklearn_classes, argmax_preds, torch_argmax, f1_of_class, precision_of_class,
    recall_of_class, pair_count, List.dedup]

/-- Claim C4, counterexample: it is not the case that every metric computation
occurs after adapter injection: in the notebook's cell order the baseline
evaluation (which runs `compute_metrics`) precedes `get_peft_model`. -/
theorem metrics_before_adapter_injection :
    stepComputesMetrics FineTuneStep.baselineEvaluate = true ∧
    fineTuneSteps.indexOf FineTuneStep.baselineEvaluate = 7 ∧
    fineTuneSteps.indexOf FineTuneStep.adapterInject = 11 ∧
    ¬ (∀ i j : Fin fineTuneSteps.length,
        stepComputesMetrics (fineTuneSteps.get i) = true →
        fineTuneSteps.get j = FineTuneStep.adapterInject → j < i) := by
  refine ⟨rfl, by decide, by decide, by decide⟩

/-- Claim C4, amended: the fine-tuning notebook executes data loading, then
tokenization, then model loading, then a baseline metric computation, then
adapter injection, then the training loop (which itself computes metrics at
every epoch), then the checkpoint save; metric computation thus occurs both
before adapter injection and during the training loop. -/
theorem fine_tune_step_order :
    fineTuneSteps.indexOf FineTuneStep.loadDataset <
      fineTuneSteps.indexOf FineTuneStep.tokenizeDataset ∧
    fineTuneSteps.indexOf FineTuneStep.tokenizeDataset <
      fineTuneSteps.indexOf FineTuneStep.loadBaseModel ∧
    fineTuneSteps.indexOf FineTuneStep.loadBaseModel <
      fineTuneSteps.indexOf FineTuneStep.baselineEvaluate ∧
    fineTuneSteps.indexOf FineTuneStep.baselineEvaluate <
      fineTuneSteps.indexOf FineTuneStep.adapterInject ∧
    fineTuneSteps.indexOf FineTuneStep.adapterInject <
      fineTuneSteps.indexOf FineTuneStep.trainLoop ∧
    fineTuneSteps.indexOf FineTuneStep.trainLoop <
      fineTuneSteps.indexOf FineTuneStep.saveAdapters ∧
    fineTuneSteps.filter stepComputesMetrics =
      [FineTuneStep.baselineEvaluate, FineTuneStep.trainLoop] := by
  decide

/-- Claim C5, counterexample: the printed comparison is not a step after the
question answering loop: in the trace, answer generation events occur after
comparison printing events (each question's comparison is printed before the
next question — and even before the same question's second answer — is
generated). -/
theorem comparison_print_interleaved_with_qa :
    isComparisonPrint (ChatbotEvent.printAnswerWithout 0) = true ∧
    isAnswerGeneration (ChatbotEvent.askWith 0) = true ∧
    chatbotTrace.indexOf (ChatbotEvent.printAnswerWithout 0) <
      chatbotTrace.indexOf (ChatbotEvent.askWith 0) ∧
    ¬ (∀ i j : Fin chatbotTrace.length,
        isAnswerGeneration (chatbotTrace.get i) = true →
        isComparisonPrint (chatbotTrace.get j) = true → i < j) := by
  refine ⟨rfl, rfl, by decide, by decide⟩

/-- Claim C5, amended: the chatbot notebook executes the CSV load, then the
text concatenation, then embedding setup, then vector store construction,
then retrieval chain construction, and then a combined question answering and
comparison loop: for each of the three questions in order, the uncustomized
answer is generated and printed and then the customized answer is generated
and printed, so each printed comparison consumes only answers generated
earlier. -/
theorem chatbot_step_order :
    questions.length = 3 ∧
    chatbotTrace.indexOf ChatbotEvent.csvLoad <
      chatbotTrace.indexOf ChatbotEvent.textConcat ∧
    chatbotTrace.indexOf ChatbotEvent.textConcat <
      chatbotTrace.indexOf ChatbotEvent.loadDocuments ∧
    chatbotTrace.indexOf ChatbotEvent.loadDocuments <
      chatbotTrace.indexOf ChatbotEvent.initEmbeddings ∧
    chatbotTrace.indexOf ChatbotEvent.initEmbeddings <
      chatbotTrace.indexOf ChatbotEvent.buildVectorStore ∧
    chatbotTrace.indexOf ChatbotEvent.buildVectorStore <
      chatbotTrace.indexOf ChatbotEvent.buildRetriever ∧
    chatbotTrace.indexOf ChatbotEvent.buildRetriever <
      chatbotTrace.indexOf ChatbotEvent.buildChain ∧
    chatbotTrace.indexOf ChatbotEvent.buildChain <
      chatbotTrace.indexOf (ChatbotEvent.printQuestion 0) ∧
    chatbotTrace.indexOf (ChatbotEvent.askWithout 0) <
      chatbotTrace.indexOf (ChatbotEvent.printAnswerWithout 0) ∧
    chatbotTrace.indexOf (ChatbotEvent.printAnswerWithout 0) <
      chatbotTrace.indexOf (ChatbotEvent.askWith 0) ∧
    chatbotTrace.indexOf (ChatbotEvent.askWith 0) <
      chatbotTrace.indexOf (ChatbotEvent.printAnswerWith 0) ∧
    chatbotTrace.indexOf (ChatbotEvent.printSep 0) <
      chatbotTrace.indexOf (ChatbotEvent.printQuestion 1) ∧
    chatbotTrace.indexOf (ChatbotEvent.askWithout 1) <
      chatbotTrace.indexOf (ChatbotEvent.printAnswerWithout 1) ∧
    chatbotTrace.indexOf (ChatbotEvent.printAnswerWithout 1) <
      chatbotTrace.indexOf (ChatbotEvent.askWith 1) ∧
    chatbotTrace.indexOf (ChatbotEvent.askWith 1) <
      chatbotTrace.indexOf (ChatbotEvent.printAnswerWith 1) ∧
    chatbotTrace.indexOf (ChatbotEvent.printSep 1) <
      chatbotTrace.indexOf (ChatbotEvent.printQuestion 2) ∧
    chatbotTrace.indexOf (ChatbotEvent.askWithout 2) <
      chatbotTrace.indexOf (ChatbotEvent.printAnswerWithout 2) ∧
    chatbotTrace.indexOf (ChatbotEvent.printAnswerWithout 2) <
      chatbotTrace.indexOf (ChatbotEvent.askWith 2) ∧
    chatbotTrace.indexOf (ChatbotEvent.askWith 2) <
      chatbotTrace.indexOf (ChatbotEvent.printAnswerWith 2) := by
  decide

/-- Claim C6: for every row of the loaded CSV, the text column is the row's
Name, then a colon and space, the Description, an opening parenthesis, the
Medium, a comma and space, the Setting, and a closing parenthesis — and this
string is exactly what the DataFrameLoader loads as the page content of the
corresponding document. -/
theorem text_column_format (df : List CharacterRow) :
    (addTextColumn df).map Prod.snd =
      df.map (fun r =>
        r.Name ++ ": " ++ r.Description ++ " (" ++ r.Medium ++ ", " ++ r.Setting ++ ")") ∧
    (dataFrameLoaderLoad (addTextColumn df)).map LCDocument.page_content =
      df.map (fun r =>
        r.Name ++ ": " ++ r.Description ++ " (" ++ r.Medium ++ ", " ++ r.Setting ++ ")") ∧
    (dataFrameLoaderLoad (addTextColumn df)).map LCDocument.metadata = df := by
  refine ⟨?_, ?_, ?_⟩
  · simp [addTextColumn, dataFrameLoaderLoad, rowText, List.map_map, Function.comp]
  · simp [addTextColumn, dataFrameLoaderLoad, rowText, List.map_map, Function.comp]
  · induction df with
    | nil => rfl
    | cons r rest ih => simpa [addTextColumn, dataFrameLoaderLoad] using ih

/-- Claim C7: no code in the repository catches or transforms an exception.
If the underlying chat-completion call raises, `chatbot_without_customization`
surfaces the identical error; if the retrieval chain invocation raises,
`chatbot_with_langchain` surfaces the identical error; if `trainer.train()`
raises, the notebook tail surfaces the identical error and the save never
runs. -/
theorem exceptions_propagate_unchanged :
    (∀ (create : List ChatMessage → Except PyError ChatResponse) (q : String) (e : PyError),
        create [⟨"user", q⟩] = Except.error e →
        chatbot_without_customization create q = Except.error e) ∧
    (∀ (invoke : ChainInput → Except PyError ChainResult) (q : String)
        (hist : List (String × String)) (e : PyError),
        invoke ⟨q, hist⟩ = Except.error e →
        chatbot_with_langchain invoke q hist = Except.error e) ∧
    (∀ (e : PyError) (s : Except PyError Unit),
        fine_tune_tail (Except.error e) s = Except.error e) := by
  refine ⟨?_, ?_, ?_⟩
  · intro create q e h
    simp [chatbot_without_customization, h]
  · intro invoke q hist e h
    simp [chatbot_with_langchain, h]
  · intro e s
    rfl

/-- Concrete instantiation of `exceptions_propagate_unchanged`: a rate-limit
error from the completion endpoint, a connection error from the chain, and an
out-of-memory error from training each reach the top level unchanged. -/
theorem exceptions_propagate_unchanged_witness :
    chatbot_without_customization (failing_create "RateLimitError") "Who is Alice?" =
      Except.error "RateLimitError" ∧
    chatbot_with_langchain (failing_invoke "APIConnectionError") "Who is Alice?" [] =
      Except.error "APIConnectionError" ∧
    fine_tune_tail (Except.error "OutOfMemoryError") (Except.ok ()) =
      Except.error "OutOfMemoryError" :=
  ⟨exceptions_propagate_unchanged.1 (failing_create "RateLimitError") "Who is Alice?"
      "RateLimitError" rfl,
   exceptions_propagate_unchanged.2.1 (failing_invoke "APIConnectionError") "Who is Alice?"
      [] "APIConnectionError" rfl,
   exceptions_propagate_unchanged.2.2 "OutOfMemoryError" (Except.ok ())⟩

/-- Claim C8: for every dataset split and every offset,
`show_one_example_per_label` prints exactly what the break-free greedy
selector selects from the rows at or after the offset (each printed example
the first one carrying a label not yet seen — the early break once all three
labels are seen changes nothing); it prints at most three examples, at most
one per label, every printed label lies in `{0, 1, 2}`, and the printed
examples are a subsequence of the split. -/
theorem show_one_example_per_label_spec (dataset_split : List MNLIExample) (offset : Nat) :
    show_one_example_per_label dataset_split offset =
      firstPerLabel (dataset_split.drop offset) [] ∧
    (show_one_example_per_label dataset_split offset).length ≤ 3 ∧
    ((show_one_example_per_label dataset_split offset).map MNLIExample.label).Nodup ∧
    (show_one_example_per_label dataset_split offset).all
      (fun e => validLabel e.label) = true ∧
    (show_one_example_per_label dataset_split offset).Sublist (dataset_split.drop offset) := by
  have heq : show_one_example_per_label dataset_split offset =
      firstPerLabel (dataset_split.drop offset) [] :=
    showGo_eq_firstPerLabel (dataset_split.drop offset) [] List.nodup_nil
      (by simp) (by simp)
  refine ⟨heq, ?_, ?_, ?_, ?_⟩
  · rw [heq]
    have := firstPerLabel_length (dataset_split.drop offset) [] List.nodup_nil (by simp)
    simpa using this
  · rw [heq]
    exact (firstPerLabel_labels (dataset_split.drop offset) []).1
  · rw [heq]
    exact firstPerLabel_all_valid (dataset_split.drop offset) []
  · rw [heq]
    exact firstPerLabel_sublist (dataset_split.drop offset) []

/-- Claim C9: with splits long enough (as MultiNLI's are), the train set
handed to the trainer is exactly the first 50000 rows of the tokenized train
split and the eval set exactly the first 4000 rows of the tokenized
validation_matched split, both in original order. -/
theorem downsample_takes_prefixes {α : Type}
    (tokenized_train tokenized_validation_matched : List α)
    (htr : 50000 ≤ tokenized_train.length)
    (hva : 4000 ≤ tokenized_validation_matched.length) :
    downsample tokenized_train tokenized_validation_matched =
      some ⟨tokenized_train.take 50000, tokenized_validation_matched.take 4000⟩ ∧
    (tokenized_train.take 50000).length = 50000 ∧
    (tokenized_validation_matched.take 4000).length = 4000 ∧
    (∀ i : Nat, i < 50000 → (tokenized_train.take 50000)[i]? = tokenized_train[i]?) ∧
    (∀ i : Nat, i < 4000 →
      (tokenized_validation_matched.take 4000)[i]? = tokenized_validation_matched[i]?) := by
  refine ⟨?_, ?_, ?_, ?_, ?_⟩
  · simp [downsample, select_range, htr, hva]
  · simp [List.length_take, Nat.min_eq_left htr]
  · simp [List.length_take, Nat.min_eq_left hva]
  · intro i hi
    rw [List.getElem?_take, if_pos hi]
  · intro i hi
    rw [List.getElem?_take, if_pos hi]

/-- Concrete instantiation of `downsample_takes_prefixes` on splits of exactly
the required lengths. -/
theorem downsample_takes_prefixes_witness :
    downsample (List.replicate 50000 (0 : ℕ)) (List.replicate 4000 (0 : ℕ)) =
      some ⟨(List.replicate 50000 (0 : ℕ)).take 50000,
            (List.replicate 4000 (0 : ℕ)).take 4000⟩ ∧
    ((List.replicate 50000 (0 : ℕ)).take 50000).length = 50000 :=
  have h := downsample_takes_prefixes (List.replicate 50000 (0 : ℕ))
    (List.replicate 4000 (0 : ℕ))
    (le_of_eq (List.length_replicate 50000 (0 : ℕ)).symm)
    (le_of_eq (List.length_replicate 4000 (0 : ℕ)).symm)
  ⟨h.1, h.2.1⟩

/-- The default-argument object of `chatbot_with_langchain` is never mutated
by any sequence of calls. -/
theorem ragEnvAfter_defaultHist (env : RagEnv) :
    ∀ calls : List (String × Option (List (String × String))),
      (ragEnvAfter env calls).defaultHist = env.defaultHist
  | [] => rfl
  | c :: rest => by
    rw [ragEnvAfter,
      ragEnvAfter_defaultHist (chatbot_with_langchain_call env c.1 c.2).2 rest]
    rfl

/-- Each call allocates the next chain id: the chains constructed by a call
sequence are numbered consecutively from the starting counter. -/
theorem runRagCalls_chainIds (env : RagEnv) :
    ∀ calls : List (String × Option (List (String × String))),
      (runRagCalls env calls).map LangchainCall.chainId =
        List.range' env.nextChainId calls.length
  | [] => rfl
  | c :: rest => by
    rw [runRagCalls, List.map_cons,
      runRagCalls_chainIds (chatbot_with_langchain_call env c.1 c.2).2 rest]
    rfl

/-- Claim C10: `chatbot_with_langchain` keeps no state between calls: after
any two histories of earlier calls, a call with equal question and
chat_history arguments submits the identical input to the retrieval chain;
the shared default chat_history object stays the empty list, an omitted
history argument therefore resolves to the empty list, and every call
constructs a distinct fresh chain. -/
theorem chatbot_with_langchain_stateless
    (earlier_a earlier_b : List (String × Option (List (String × String))))
    (q : String) (hist : Option (List (String × String))) :
    (chatbot_with_langchain_call (ragEnvAfter initialRagEnv earlier_a) q hist).1.input =
      (chatbot_with_langchain_call (ragEnvAfter initialRagEnv earlier_b) q hist).1.input ∧
    (ragEnvAfter initialRagEnv earlier_a).defaultHist = [] ∧
    (chatbot_with_langchain_call (ragEnvAfter initialRagEnv earlier_a) q none).1.input.chat_history =
      [] ∧
    ((runRagCalls initialRagEnv earlier_a).map LangchainCall.chainId).Nodup := by
  have ha := ragEnvAfter_defaultHist initialRagEnv earlier_a
  have hb := ragEnvAfter_defaultHist initialRagEnv earlier_b
  refine ⟨?_, ?_, ?_, ?_⟩
  · simp [chatbot_with_langchain_call, ha, hb]
  · rw [ha]
    rfl
  · simp only [chatbot_with_langchain_call, Option.getD_none]
    rw [ha]
    rfl
  · rw [runRagCalls_chainIds]
    exact List.nodup_range' _ _
